import Mathlib

/-!
Verification of the online time-series decomposition core of this repository
(src/lib/maths/time_series/CTimeSeriesDecompositionDetail.cc) against its
natural-language specification.

Modelling conventions.  Values of the C++ double type are modelled as
rationals; core_t::TTime (signed 64-bit seconds) and int are modelled as
Lean integers.  Classes that live outside the provided source slice
(CSeasonalComponent, CCalendarComponent, CTrendComponent, the accumulator
classes of maths/common and CIntegerTools) are modelled from the
specification, each with a doc comment saying so; everything else is a
direct translation of the source file.
-/

set_option maxRecDepth 10000

/-- Seconds in an hour, core::constants::HOUR. -/
def HOUR : ℤ := 3600

/-- Seconds in a day, core::constants::DAY. -/
def DAY : ℤ := 86400

/-- Seconds in a week, core::constants::WEEK. -/
def WEEK : ℤ := 604800

/-- Four weeks, the MONTH constant of the source file (line 89). -/
def MONTH : ℤ := 4 * WEEK

/-- The MAXIMUM_COMPONENTS constant of the source file (line 90). -/
def MAXIMUM_COMPONENTS : ℕ := 8

namespace CIntegerTools

/-- Modelled from the spec: common::CIntegerTools::floor is declared outside
this source slice; per the specification it floors a time to the largest
multiple of the step not exceeding it.  For a positive step this is
step * (t / step) with floor division (Int.ediv). -/
def floorTo (t step : ℤ) : ℤ := step * (t / step)

/-- Modelled from the spec: common::CIntegerTools::ceil, the smallest
multiple of the step that is at least the given time. -/
def ceilTo (t step : ℤ) : ℤ := -(step * ((-t) / step))

theorem floorTo_le (t step : ℤ) (h : 0 < step) : floorTo t step ≤ t := by
  have h1 := Int.ediv_add_emod t step
  have h2 := Int.emod_nonneg t (ne_of_gt h)
  unfold floorTo
  linarith

theorem floorTo_mono (a b step : ℤ) (h : 0 < step) (hab : a ≤ b) :
    floorTo a step ≤ floorTo b step := by
  unfold floorTo
  exact mul_le_mul_of_nonneg_left (Int.ediv_le_ediv h hab) (le_of_lt h)

theorem dvd_floorTo (t step : ℤ) : step ∣ floorTo t step := Dvd.intro _ rfl

theorem le_ceilTo (t step : ℤ) (h : 0 < step) : t ≤ ceilTo t step := by
  have h1 := Int.ediv_add_emod (-t) step
  have h2 := Int.emod_nonneg (-t) (ne_of_gt h)
  unfold ceilTo
  linarith

theorem ceilTo_lt (t step : ℤ) (h : 0 < step) : ceilTo t step < t + step := by
  have h1 := Int.ediv_add_emod (-t) step
  have h2 := Int.emod_lt_of_pos (-t) h
  unfold ceilTo
  linarith

theorem dvd_ceilTo (t step : ℤ) : step ∣ ceilTo t step :=
  dvd_neg.mpr (Dvd.intro _ rfl)

end CIntegerTools

/-- Truncation of a rational toward zero, the semantics of the C++
static_cast from double to an integer type. -/
def truncQ (q : ℚ) : ℤ := Int.tdiv q.num q.den

theorem truncQ_eq_floor_of_nonneg (q : ℚ) (h : 0 ≤ q) : truncQ q = Rat.floor q := by
  rw [truncQ, Rat.floor_def',
    Int.tdiv_eq_ediv (Rat.num_nonneg.mpr h) (Int.natCast_nonneg q.den)]

/-! ## The decompose function (C1)

Source: CTimeSeriesDecompositionDetail.cc, lines 154 to 211.  The function
reads each seasonal and calendar component only through value(time, 0.0)
and meanValue(), so components enter the model as views carrying those two
observables. -/

/-- View of a seasonal component as read by decompose: the mean of
value(time, 0.0) as a function of time, and meanValue(). -/
structure SeasonalComponentView where
  valueAt : ℤ → ℚ
  meanValue : ℚ

/-- View of a calendar component as read by decompose. -/
structure CalendarComponentView where
  valueAt : ℤ → ℚ
  meanValue : ℚ

/-- Result record of decompose: the final contents of the in-out
decomposition vector together with the four out parameters. -/
structure DecomposeResult where
  decomposition : List ℚ
  predictions : List ℚ
  referenceError : ℚ
  error : ℚ
  scale : ℚ

/-- Embedding of decompose (lines 154 to 211).  The source initialises
x[0..m+n) from the component values at the given time, accumulates
xhat = trend + sum x, computes Z = max((m+n+1)/gain, 1), reads the error
outputs from the incoming decomposition[0] before overwriting it, then
rewrites every slot of the decomposition vector; seasonal slots also
receive deltas[i].  The two source loops over seasonal then calendar
components are rendered as one map over the concatenated index range. -/
def decompose (trend : ℚ) (seasonal : List SeasonalComponentView)
    (calendar : List CalendarComponentView) (time : ℤ) (deltas : List ℚ)
    (gain : ℚ) (decomposition : List ℚ) : DecomposeResult :=
  let m := seasonal.length
  let n := calendar.length
  let x0 := trend
  let x := seasonal.map (fun c => c.valueAt time) ++ calendar.map (fun c => c.valueAt time)
  let xhat := x0 + x.sum
  let Z := max ((m + n + 1 : ℚ) / gain) 1
  let err := decomposition.getD 0 0 - xhat
  let refErr := decomposition.getD 0 0 - x0
  let means := seasonal.map (fun c => c.meanValue) ++ calendar.map (fun c => c.meanValue)
  { decomposition :=
      (x0 + (decomposition.getD 0 0 - xhat) / Z) ::
        (List.range (m + n)).map (fun i =>
          x.getD i 0 + (decomposition.getD (i + 1) 0 - xhat) / Z +
            (if i < m then deltas.getD i 0 else 0))
    predictions := (List.range (m + n)).map (fun i => x.getD i 0 - means.getD i 0)
    referenceError := refErr
    error := err
    scale := Z / (m + n + 1 : ℚ) }

theorem list_getD_replicate {α : Type} (a d : α) (n i : ℕ) :
    (List.replicate n a).getD i d = if i < n then a else d := by
  rw [List.getD_eq_getElem?_getD, List.getElem?_replicate]
  split <;> simp

theorem list_getD_range_map {α : Type} (f : ℕ → α) (d : α) (n i : ℕ) :
    ((List.range n).map f).getD i d = if i < n then f i else d := by
  rw [List.getD_eq_getElem?_getD, List.getElem?_map]
  rcases Nat.lt_or_ge i n with h | h
  · rw [List.getElem?_range h]
    simp [h]
  · rw [List.getElem?_eq_none (by simpa using h)]
    simp [Nat.not_lt.mpr h]

/-- C1: for an observation handled by the component store with m active
seasonal and n active calendar components, the store calls decompose on a
vector of m+n+1 copies of the observed value (source line 1778).  Writing
xs for the component values at the time and xhat for trend plus their sum,
the outputs are Z = max((m+n+1)/gain, 1), slot 0 becomes
trend + (value - xhat)/Z, seasonal slot i+1 becomes
xs[i] + (value - xhat)/Z + deltas[i], calendar slots get no delta,
error = value - xhat, referenceError = value - trend and
scale = Z/(m+n+1). -/
theorem decompose_update_values (trend : ℚ) (seasonal : List SeasonalComponentView)
    (calendar : List CalendarComponentView) (time : ℤ) (deltas : List ℚ)
    (gain : ℚ) (value : ℚ) (xs : List ℚ)
    (hxs : xs = seasonal.map (fun c => c.valueAt time) ++
      calendar.map (fun c => c.valueAt time))
    (xhat Z : ℚ) (hxhat : xhat = trend + xs.sum)
    (hZ : Z = max ((seasonal.length + calendar.length + 1 : ℚ) / gain) 1)
    (r : DecomposeResult)
    (hr : r = decompose trend seasonal calendar time deltas gain
      (List.replicate (seasonal.length + calendar.length + 1) value)) :
    r.decomposition.getD 0 0 = trend + (value - xhat) / Z ∧
    (∀ i, i < seasonal.length →
      r.decomposition.getD (i + 1) 0 = xs.getD i 0 + (value - xhat) / Z + deltas.getD i 0) ∧
    (∀ i, seasonal.length ≤ i → i < seasonal.length + calendar.length →
      r.decomposition.getD (i + 1) 0 = xs.getD i 0 + (value - xhat) / Z) ∧
    r.error = value - xhat ∧
    r.referenceError = value - trend ∧
    r.scale = Z / (seasonal.length + calendar.length + 1 : ℚ) := by
  subst hxs hxhat hZ hr
  unfold decompose
  simp only
  refine ⟨?_, ?_, ?_, ?_, ?_, ?_⟩
  · rw [List.getD_cons_zero, list_getD_replicate, if_pos (by omega)]
  · intro i hi
    rw [List.getD_cons_succ, list_getD_range_map, if_pos (by omega),
      list_getD_replicate, if_pos (by omega), if_pos hi]
  · intro i hmi hi
    rw [List.getD_cons_succ, list_getD_range_map, if_pos (by omega),
      list_getD_replicate, if_pos (by omega), if_neg (by omega), add_zero]
  · rw [list_getD_replicate, if_pos (by omega)]
  · rw [list_getD_replicate, if_pos (by omega)]
  · trivial

/-- Closed instance of the C1 theorem: one seasonal component with value 2
and one calendar component with value 3, trend 1, value 10, gain 3 and
delta one half; the seasonal slot receives 2 + (10 - 6)/Z + 1/2. -/
theorem decompose_update_values_witness :
    (decompose 1 [⟨fun _ => 2, 5⟩] [⟨fun _ => 3, 7⟩] 0 [1/2] 3
        (List.replicate (1 + 1 + 1) 10)).decomposition.getD (0 + 1) 0 =
      ([(2 : ℚ), 3]).getD 0 0 + (10 - (1 + [(2 : ℚ), 3].sum)) /
        max (((1 : ℕ) + (1 : ℕ) + 1 : ℚ) / 3) 1 + ([(1 : ℚ)/2]).getD 0 0 :=
  (decompose_update_values 1 [⟨fun _ => 2, 5⟩] [⟨fun _ => 3, 7⟩] 0 [1/2] 3 10
    [(2 : ℚ), 3] rfl _ _ rfl rfl _ rfl).2.1 0 (by decide)

/-! ## Stepwise propagation (C6)

Source: stepwisePropagateForwards, lines 215 to 226.  Both endpoints are
floored to the step and the callback receives the number of elapsed steps.
The callbacks used by the source (CSeasonal::propagateForwards line 2627,
CCalendar::propagateForwards line 2946, CChangePointTest::propagateForwards
line 680, CCalendarTest::propagateForwards line 1539) all age an
accumulator by a multiplicative exponential factor, so the accumulator is
modelled as a rational aged by factor to the power of the elapsed steps. -/

/-- Embedding of stepwisePropagateForwards (lines 215 to 226) applied to an
accumulator that ageing by time t multiplies by factor to the power t.  The
elapsed time (end - start) / step is an exact integer because both
endpoints have been floored to the step. -/
def stepwisePropagateForwards (factor : ℚ) (start endT step : ℤ) (x : ℚ) : ℚ :=
  let s := CIntegerTools.floorTo start step
  let e := CIntegerTools.floorTo endT step
  if e > s then x * factor ^ ((e - s) / step).toNat else x

/-- C6: for times a ≤ b ≤ c and a positive step, propagating over (a, b)
then over (b, c) produces the same aged accumulator as propagating once
over (a, c): the flooring of both endpoints makes the elapsed step counts
add up exactly, so no ageing is lost or applied twice. -/
theorem stepwisePropagateForwards_split (factor : ℚ) (a b c step : ℤ)
    (hstep : 0 < step) (hab : a ≤ b) (hbc : b ≤ c) (x : ℚ) :
    stepwisePropagateForwards factor b c step
        (stepwisePropagateForwards factor a b step x) =
      stepwisePropagateForwards factor a c step x := by
  unfold stepwisePropagateForwards CIntegerTools.floorTo
  simp only [gt_iff_lt]
  have hne : step ≠ 0 := ne_of_gt hstep
  have hdiv : ∀ u v : ℤ, (step * v - step * u) / step = v - u := by
    intro u v
    rw [← mul_sub, Int.mul_ediv_cancel_left _ hne]
  have hab2 : a / step ≤ b / step := Int.ediv_le_ediv hstep hab
  have hbc2 : b / step ≤ c / step := Int.ediv_le_ediv hstep hbc
  generalize a / step = ka at hab2 ⊢
  generalize b / step = kb at hab2 hbc2 ⊢
  generalize c / step = kc at hbc2 ⊢
  simp only [mul_lt_mul_left hstep, hdiv]
  rcases lt_or_eq_of_le hab2 with h1 | h1 <;> rcases lt_or_eq_of_le hbc2 with h2 | h2
  · rw [if_pos h2, if_pos h1, if_pos (h1.trans h2), mul_assoc, ← pow_add,
      show (kb - ka).toNat + (kc - kb).toNat = (kc - ka).toNat by omega]
  · subst h2
    rw [if_neg (lt_irrefl _)]
  · subst h1
    rw [if_pos h2, if_neg (lt_irrefl _), if_pos h2]
  · subst h1
    subst h2
    rw [if_neg (lt_irrefl _)]

/-- Closed instance of the C6 theorem at a = 5, b = 17, c = 29 with step 10
and factor one half. -/
theorem stepwisePropagateForwards_split_witness :
    stepwisePropagateForwards (1/2) 17 29 10
        (stepwisePropagateForwards (1/2) 5 17 10 3) =
      stepwisePropagateForwards (1/2) 5 29 10 3 :=
  stepwisePropagateForwards_split (1/2) 5 17 29 10 (by decide) (by decide) (by decide) 3

/-! ## Per-component error statistics (C4)

Source: CComponentErrors, lines 2516 to 2563.  The state holds the mean
vector accumulator m_MeanErrors, whose components are the running means of
the squared no-component error, the squared error with the component and
the squared error without this component, together with its count, and the
max accumulator m_MaxVarianceIncrease. -/

/-- State of CComponentErrors: the count and the three component means of
m_MeanErrors, and the maximum held by m_MaxVarianceIncrease. -/
structure CComponentErrors where
  count : ℚ
  errorWithNoComponents : ℚ
  errorWithComponent : ℚ
  errorWithoutComponent : ℚ
  maxVarianceIncrease : ℚ

/-- Embedding of CComponentErrors::remove (lines 2534 to 2544): history is
the error count times the bucket length; the first disjunct requires the
history to exceed one week and the with-component error to exceed the
no-component error; the second requires the history to exceed five periods,
the maximum variance increase to be below 1.2 and the without-component
error to be at most the with-component error. -/
def CComponentErrors.remove (e : CComponentErrors) (bucketLength period : ℤ) : Bool :=
  let history := e.count * (bucketLength : ℚ)
  decide ((history > (WEEK : ℚ) ∧ e.errorWithComponent > e.errorWithNoComponents) ∨
    (history > 5 * (period : ℚ) ∧ e.maxVarianceIncrease < 6/5 ∧
      e.errorWithoutComponent ≤ e.errorWithComponent))

/-- The removal predicate as the specification words it: history at least
one week, respectively at least five periods, with non-strict comparisons.
Stated only for comparison with the source definition. -/
def CComponentErrors.specRemove (e : CComponentErrors) (bucketLength period : ℤ) : Bool :=
  let history := e.count * (bucketLength : ℚ)
  decide ((history ≥ (WEEK : ℚ) ∧ e.errorWithComponent > e.errorWithNoComponents) ∨
    (history ≥ 5 * (period : ℚ) ∧ e.maxVarianceIncrease < 6/5 ∧
      e.errorWithoutComponent ≤ e.errorWithComponent))

/-- C4 counterexample: with exactly one week of history (count 1 at bucket
length 604800) and with-component error 1 above the no-component error 0,
the source returns false because it compares the history strictly, while
the claim, which asks for history at least one week, says true. -/
theorem componentErrors_remove_boundary_gap :
    CComponentErrors.remove ⟨1, 0, 1, 2, 2⟩ 604800 604800 = false ∧
    CComponentErrors.specRemove ⟨1, 0, 1, 2, 2⟩ 604800 604800 = true := by
  constructor <;> with_unfolding_all decide

/-- C4 as amended: remove returns true exactly when the history strictly
exceeds one week and the with-component error exceeds the no-component
error, or the history strictly exceeds five periods, the maximum variance
increase is below 1.2 and the without-component error is at most the
with-component error. -/
theorem componentErrors_remove_iff (e : CComponentErrors) (bucketLength period : ℤ) :
    CComponentErrors.remove e bucketLength period = true ↔
      (e.count * (bucketLength : ℚ) > (WEEK : ℚ) ∧
        e.errorWithComponent > e.errorWithNoComponents) ∨
      (e.count * (bucketLength : ℚ) > 5 * (period : ℚ) ∧
        e.maxVarianceIncrease < 6/5 ∧
        e.errorWithoutComponent ≤ e.errorWithComponent) := by
  unfold CComponentErrors.remove
  simp only [decide_eq_true_eq]

/-! ## The change-point test (C3, C10)

Source: CChangePointTest, lines 499 to 960.  Only the fields read or
written by shouldTest, minimumChangeLength, maximumIntervalToDetectChange,
countWeight, updateTotalCountWeights and reset are modelled.  The ring
buffer, the mean offset and the residual moments do not influence these
operations.  MINIMUM_WINDOW_BUCKET_LENGTH is a constant of the header,
which is outside this source slice, so it is carried as a state field. -/

/-- State of CChangePointTest restricted to the fields used by the
trigger predicate and the count-weight machinery.  The undoable change
handle is modelled by whether it is non-null. -/
structure CChangePointTest where
  bucketLength : ℤ
  minimumWindowBucketLength : ℤ
  undoableLastChange : Bool
  lastTestTime : ℤ
  lastChangePointTime : ℤ
  lastCandidateChangePointTime : ℤ
  totalCountWeightAdjustment : ℚ
  minimumTotalCountWeightAdjustment : ℚ
  largeErrorFraction : ℚ

namespace CChangePointTest

/-- Embedding of windowBucketLength (lines 954 to 956):
max(MINIMUM_WINDOW_BUCKET_LENGTH, m_BucketLength). -/
def windowBucketLength (s : CChangePointTest) : ℤ :=
  max s.minimumWindowBucketLength s.bucketLength

/-- Embedding of minimumChangeLength (lines 908 to 921): take
max(30 hours, 5 window buckets), scale by min(1/occupancy, 2), round to the
nearest second (the source adds 0.5 and casts, which truncates toward
zero), then round up to a multiple of the window bucket length. -/
def minimumChangeLength (s : CChangePointTest) (occupancy : ℚ) : ℤ :=
  let length := max (30 * HOUR) (5 * s.windowBucketLength)
  let rounded := truncQ (min (1 / occupancy) 2 * (length : ℚ) + 1/2)
  CIntegerTools.ceilTo rounded s.windowBucketLength

/-- Embedding of maximumIntervalToDetectChange (lines 923 to 926):
5 * minimumChangeLength / 3 in C++ integer division. -/
def maximumIntervalToDetectChange (s : CChangePointTest) (occupancy : ℚ) : ℤ :=
  (5 * s.minimumChangeLength occupancy).tdiv 3

/-- Embedding of shouldTest (lines 899 to 906). -/
def shouldTest (s : CChangePointTest) (time : ℤ) (occupancy : ℚ) : Bool :=
  decide (s.undoableLastChange = false ∧
    (time > s.lastTestTime + s.minimumChangeLength occupancy ∨
      (time > s.lastTestTime + 3 * s.windowBucketLength ∧
        time < s.lastCandidateChangePointTime + s.maximumIntervalToDetectChange occupancy ∧
        time > s.lastCandidateChangePointTime + s.minimumChangeLength occupancy)))

/-- The spec reading of ceil_to_window_bucket applied to a rational length:
the smallest multiple of the step at least the value.  Stated only for
comparison with the source definition. -/
def ratCeilTo (q : ℚ) (step : ℤ) : ℤ := step * Rat.ceil (q / (step : ℚ))

/-- The claim formula for minimum_change_length:
ceil_to_window_bucket(min(1/occupancy, 2) * max(30 hours, 5 window
buckets)) without the rounding to the nearest second performed by the
source.  Stated only for comparison with the source definition. -/
def specMinimumChangeLength (s : CChangePointTest) (occupancy : ℚ) : ℤ :=
  ratCeilTo (min (1 / occupancy) 2 * ((max (30 * HOUR) (5 * s.windowBucketLength) : ℤ) : ℚ))
    s.windowBucketLength

/-- The claim formula for maximum_interval_to_detect_change. -/
def specMaximumIntervalToDetectChange (s : CChangePointTest) (occupancy : ℚ) : ℤ :=
  (5 * s.specMinimumChangeLength occupancy).tdiv 3

/-- The trigger predicate exactly as the claim words it, with the claim
formulas substituted for the two lengths. -/
def specShouldTest (s : CChangePointTest) (time : ℤ) (occupancy : ℚ) : Bool :=
  decide (s.undoableLastChange = false ∧
    (time > s.lastTestTime + s.specMinimumChangeLength occupancy ∨
      (time > s.lastTestTime + 3 * s.windowBucketLength ∧
        time < s.lastCandidateChangePointTime + s.specMaximumIntervalToDetectChange occupancy ∧
        time > s.lastCandidateChangePointTime + s.specMinimumChangeLength occupancy)))

end CChangePointTest

/-- A concrete change-point test state: job bucket length 300 seconds,
window bucket length 3600 seconds, no pending undo, last test at time 0
and no recent candidate. -/
def changePointTestExample : CChangePointTest :=
  ⟨300, 3600, false, 0, 0, -1000000, 0, 0, 0⟩

/-- C3 counterexample: with occupancy 432000/432001 the scaled length is
108000.25 seconds; the source rounds it to 108000, already a multiple of
the window bucket, giving minimum_change_length 108000, while the claim
formula rounds it up to 111600.  At time 108001 the source tests but the
claim predicate says it must not. -/
theorem changePointTest_shouldTest_spec_gap :
    CChangePointTest.shouldTest changePointTestExample 108001 (mkRat 432000 432001) = true ∧
    CChangePointTest.specShouldTest changePointTestExample 108001 (mkRat 432000 432001) = false := by
  constructor <;> with_unfolding_all decide

/-- C3 as amended: the trigger fires exactly when no undoable change is
pending and either the time is more than minimum_change_length past the
last test, or it is more than three window buckets past the last test and
lies strictly between minimum_change_length and
maximum_interval_to_detect_change after the last candidate; and
minimum_change_length is the smallest multiple of the window bucket length
at least round_to_nearest_second(min(1/occupancy, 2) * max(30 hours,
5 window buckets)), with maximum_interval_to_detect_change its 5/3 multiple
in integer division.  The rounding to the nearest second before the ceiling
is the one correction to the claim. -/
theorem changePointTest_shouldTest_iff (s : CChangePointTest) (time : ℤ) (occ : ℚ)
    (hocc0 : 0 < occ) (hocc1 : occ ≤ 1) (hw : 0 < s.windowBucketLength) :
    (s.shouldTest time occ = true ↔
      s.undoableLastChange = false ∧
        (time > s.lastTestTime + s.minimumChangeLength occ ∨
          (time > s.lastTestTime + 3 * s.windowBucketLength ∧
            time < s.lastCandidateChangePointTime + s.maximumIntervalToDetectChange occ ∧
            time > s.lastCandidateChangePointTime + s.minimumChangeLength occ))) ∧
    (s.windowBucketLength ∣ s.minimumChangeLength occ ∧
      Rat.floor (min (1 / occ) 2 *
          ((max (30 * HOUR) (5 * s.windowBucketLength) : ℤ) : ℚ) + 1/2) ≤
        s.minimumChangeLength occ ∧
      s.minimumChangeLength occ <
        Rat.floor (min (1 / occ) 2 *
          ((max (30 * HOUR) (5 * s.windowBucketLength) : ℤ) : ℚ) + 1/2) +
          s.windowBucketLength) ∧
    s.maximumIntervalToDetectChange occ = (5 * s.minimumChangeLength occ).tdiv 3 := by
  have harg : (0 : ℚ) ≤ min (1 / occ) 2 *
      ((max (30 * HOUR) (5 * s.windowBucketLength) : ℤ) : ℚ) + 1/2 := by
    have h1 : (0 : ℚ) ≤ min (1 / occ) 2 :=
      le_min (by positivity) (by norm_num)
    have h2 : (0 : ℚ) ≤ ((max (30 * HOUR) (5 * s.windowBucketLength) : ℤ) : ℚ) := by
      have : (30 * HOUR : ℤ) ≤ max (30 * HOUR) (5 * s.windowBucketLength) := le_max_left _ _
      have h30 : (0 : ℤ) ≤ 30 * HOUR := by unfold HOUR; norm_num
      exact_mod_cast h30.trans this
    positivity
  refine ⟨?_, ⟨?_, ?_, ?_⟩, rfl⟩
  · unfold CChangePointTest.shouldTest
    rw [decide_eq_true_eq]
  · unfold CChangePointTest.minimumChangeLength
    exact CIntegerTools.dvd_ceilTo _ _
  · rw [← truncQ_eq_floor_of_nonneg _ harg]
    unfold CChangePointTest.minimumChangeLength
    exact CIntegerTools.le_ceilTo _ _ hw
  · rw [← truncQ_eq_floor_of_nonneg _ harg]
    unfold CChangePointTest.minimumChangeLength
    exact CIntegerTools.ceilTo_lt _ _ hw

/-- Closed instance of the amended C3 theorem at the example state, time
108001 and occupancy one. -/
theorem changePointTest_shouldTest_iff_witness :
    ((changePointTestExample.shouldTest 108001 1 = true ↔
      changePointTestExample.undoableLastChange = false ∧
        (108001 > changePointTestExample.lastTestTime +
            changePointTestExample.minimumChangeLength 1 ∨
          (108001 > changePointTestExample.lastTestTime +
              3 * changePointTestExample.windowBucketLength ∧
            108001 < changePointTestExample.lastCandidateChangePointTime +
              changePointTestExample.maximumIntervalToDetectChange 1 ∧
            108001 > changePointTestExample.lastCandidateChangePointTime +
              changePointTestExample.minimumChangeLength 1))) ∧
    (changePointTestExample.windowBucketLength ∣
        changePointTestExample.minimumChangeLength 1 ∧
      Rat.floor (min (1 / (1 : ℚ)) 2 *
          ((max (30 * HOUR) (5 * changePointTestExample.windowBucketLength) : ℤ) : ℚ) + 1/2) ≤
        changePointTestExample.minimumChangeLength 1 ∧
      changePointTestExample.minimumChangeLength 1 <
        Rat.floor (min (1 / (1 : ℚ)) 2 *
          ((max (30 * HOUR) (5 * changePointTestExample.windowBucketLength) : ℤ) : ℚ) + 1/2) +
          changePointTestExample.windowBucketLength) ∧
    changePointTestExample.maximumIntervalToDetectChange 1 =
      (5 * changePointTestExample.minimumChangeLength 1).tdiv 3) :=
  changePointTest_shouldTest_iff changePointTestExample 108001 1 (by norm_num)
    (le_refl 1) (by with_unfolding_all decide)

/-- Modelled from the spec: CHANGE_COUNT_WEIGHT is a constant declared in
the header, outside this source slice; per the specification it is
approximately 0.1. -/
def CHANGE_COUNT_WEIGHT : ℚ := 1/10

namespace CChangePointTest

/-- Embedding of countWeight (lines 660 to 670): while the adjustment is
above its running minimum and the large-error fraction exceeds one
quarter, return CHANGE_COUNT_WEIGHT, else 1 + min(1, -adjustment). -/
def countWeight (s : CChangePointTest) (_time : ℤ) : ℚ :=
  if s.totalCountWeightAdjustment > s.minimumTotalCountWeightAdjustment ∧
      s.largeErrorFraction > 1/4 then
    CHANGE_COUNT_WEIGHT
  else
    1 + min 1 (-s.totalCountWeightAdjustment)

/-- Embedding of updateTotalCountWeights (lines 745 to 762): integrate
(countWeight - 1) over the elapsed buckets, clamp the integral to at most
zero, and maintain the running minimum target. -/
def updateTotalCountWeights (s : CChangePointTest) (time lastTime : ℤ)
    (occupancy : ℚ) : CChangePointTest :=
  let a := s.totalCountWeightAdjustment +
    ((time - lastTime : ℤ) : ℚ) / (s.bucketLength : ℚ) * (s.countWeight time - 1)
  let a2 := min a 0
  let m1 := if a2 = 0 then
      (CHANGE_COUNT_WEIGHT - 1) * ((s.maximumIntervalToDetectChange occupancy : ℤ) : ℚ) /
        (s.bucketLength : ℚ)
    else s.minimumTotalCountWeightAdjustment
  let m2 := if a2 < m1 then 0 else m1
  { s with totalCountWeightAdjustment := a2, minimumTotalCountWeightAdjustment := m2 }

/-- Embedding of reset (lines 649 to 658) restricted to the modelled
fields: the window and residual moments are cleared in the source but are
not part of this model. -/
def reset (s : CChangePointTest) (time : ℤ) : CChangePointTest :=
  { s with
    largeErrorFraction := 0
    totalCountWeightAdjustment := 0
    minimumTotalCountWeightAdjustment := 0
    lastCandidateChangePointTime := time - 4 * s.maximumIntervalToDetectChange 1 }

end CChangePointTest

/-- The freshly constructed change-point test (lines 501 to 509): the
numeric fields default to zero and the three timestamps to half the
minimum 64-bit time. -/
def initialChangePointTest (bucketLength minimumWindowBucketLength : ℤ) : CChangePointTest :=
  { bucketLength := bucketLength
    minimumWindowBucketLength := minimumWindowBucketLength
    undoableLastChange := false
    lastTestTime := -4611686018427387904
    lastChangePointTime := -4611686018427387904
    lastCandidateChangePointTime := -4611686018427387904
    totalCountWeightAdjustment := 0
    minimumTotalCountWeightAdjustment := 0
    largeErrorFraction := 0 }

/-- Reachability of a change-point test state.  Besides construction,
updateTotalCountWeights and reset, the remaining handlers
(testForCandidateChange, testForChange, testUndoLastChange, the state
machine hooks and propagateForwards) never write
m_TotalCountWeightAdjustment, so they are over-approximated by an
environment step that may change every other field. -/
inductive ReachableCPT : CChangePointTest → Prop
  | init (bucketLength minimumWindowBucketLength : ℤ) :
      ReachableCPT (initialChangePointTest bucketLength minimumWindowBucketLength)
  | update (s : CChangePointTest) (time lastTime : ℤ) (occupancy : ℚ) :
      ReachableCPT s → ReachableCPT (s.updateTotalCountWeights time lastTime occupancy)
  | reset (s : CChangePointTest) (time : ℤ) :
      ReachableCPT s → ReachableCPT (s.reset time)
  | env (s s' : CChangePointTest) : ReachableCPT s →
      s'.totalCountWeightAdjustment = s.totalCountWeightAdjustment → ReachableCPT s'

theorem reachableCPT_totalAdjustment_nonpos (s : CChangePointTest)
    (h : ReachableCPT s) : s.totalCountWeightAdjustment ≤ 0 := by
  induction h with
  | init bucketLength minimumWindowBucketLength => exact le_refl 0
  | update s time lastTime occupancy _ _ => exact min_le_right _ _
  | reset s time _ _ => exact le_refl 0
  | env s s' _ heq ih => rw [heq]; exact ih

/-- C10: in every reachable change-point test state the adjusted count
weight is either CHANGE_COUNT_WEIGHT or lies in the interval from 1 to 2,
and in particular never exceeds 2, because the total count weight
adjustment is clamped to at most zero on every update. -/
theorem countWeight_in_range (s : CChangePointTest) (hs : ReachableCPT s) (time : ℤ) :
    (s.countWeight time = CHANGE_COUNT_WEIGHT ∨
      (1 ≤ s.countWeight time ∧ s.countWeight time ≤ 2)) ∧
    s.countWeight time ≤ 2 := by
  have hadj := reachableCPT_totalAdjustment_nonpos s hs
  unfold CChangePointTest.countWeight
  split_ifs with h
  · refine ⟨Or.inl rfl, ?_⟩
    unfold CHANGE_COUNT_WEIGHT
    norm_num
  · have h1 : (0 : ℚ) ≤ min 1 (-s.totalCountWeightAdjustment) :=
      le_min zero_le_one (by linarith)
    have h2 : min 1 (-s.totalCountWeightAdjustment) ≤ 1 := min_le_left _ _
    exact ⟨Or.inr ⟨by linarith, by linarith⟩, by linarith⟩

/-- Closed instance of the C10 theorem at the freshly constructed state. -/
theorem countWeight_in_range_witness :
    ((initialChangePointTest 300 3600).countWeight 0 = CHANGE_COUNT_WEIGHT ∨
      (1 ≤ (initialChangePointTest 300 3600).countWeight 0 ∧
        (initialChangePointTest 300 3600).countWeight 0 ≤ 2)) ∧
    (initialChangePointTest 300 3600).countWeight 0 ≤ 2 :=
  countWeight_in_range (initialChangePointTest 300 3600)
    (ReachableCPT.init 300 3600) 0

/-! ## The calendar test (C7, C9)

Source: CCalendarTest, lines 1467 to 1626.  The civil month of a time
depends on the timezone database, so it enters the model as a function
parameter; the inner CCalendarCyclicTest lives outside this source slice
and its test() result enters as a parameter as well. -/

/-- States of the calendar test state machine (lines 268 to 282). -/
inductive CCState
  | initial
  | test
  | notTesting
  | error
  deriving DecidableEq

/-- Symbols of the calendar test state machine. -/
inductive CCSymbol
  | newValue
  | reset
  deriving DecidableEq

/-- The calendar test transition function CC_TRANSITION_FUNCTION (lines
280 to 282). -/
def ccTransition : CCState → CCSymbol → CCState
  | CCState.initial, CCSymbol.newValue => CCState.test
  | CCState.test, CCSymbol.newValue => CCState.test
  | CCState.notTesting, CCSymbol.newValue => CCState.notTesting
  | CCState.error, CCSymbol.newValue => CCState.error
  | CCState.initial, CCSymbol.reset => CCState.initial
  | CCState.test, CCSymbol.reset => CCState.initial
  | CCState.notTesting, CCSymbol.reset => CCState.notTesting
  | CCState.error, CCSymbol.reset => CCState.initial

/-- State of CCalendarTest: the machine state, m_LastMonth, and whether
m_Test is non-null.  The months handled by the source are the nonnegative
values produced by the timezone date fields, so m_LastMonth is a natural
number. -/
structure CCalendarTest where
  machine : CCState
  lastMonth : ℕ
  testExists : Bool

/-- A message forwarded for one detected calendar feature: the fields of
SDetectedCalendar that the calendar test fills in. -/
structure SDetectedCalendarMsg where
  time : ℤ
  lastTime : ℤ
  feature : ℕ
  timeZoneOffset : ℤ

namespace CCalendarTest

/-- Embedding of shouldTest (lines 1612 to 1619).  The source mutates
m_LastMonth when it answers true, so the result carries the new state. -/
def shouldTest (month : ℤ → ℕ) (s : CCalendarTest) (time : ℤ) :
    Bool × CCalendarTest :=
  if month time = (s.lastMonth + 1) % 12 then
    (true, { s with lastMonth := month time })
  else
    (false, s)

/-- Embedding of apply (lines 1580 to 1610).  On entering TEST with a null
inner test the source allocates it and seeds m_LastMonth with
month(time) + 2; on entering NOT_TESTING or INITIAL it frees the inner
test and zeroes m_LastMonth.  The default branch cannot be reached because
no changing transition of the table lands in ERROR; the source would log
and apply CC_RESET, which lands in INITIAL. -/
def apply (month : ℤ → ℕ) (s : CCalendarTest) (symbol : CCSymbol) (time : ℤ) :
    CCalendarTest :=
  let next := ccTransition s.machine symbol
  if next = s.machine then { s with machine := next }
  else
    match next with
    | CCState.test =>
        if s.testExists = false then
          { machine := next, lastMonth := month time + 2, testExists := true }
        else
          { s with machine := next }
    | CCState.notTesting => { machine := next, lastMonth := 0, testExists := false }
    | CCState.initial => { machine := next, lastMonth := 0, testExists := false }
    | CCState.error => { machine := CCState.initial, lastMonth := 0, testExists := false }

/-- Embedding of test (lines 1513 to 1537).  The returned flag records
whether the inner test was invoked; when it is, one SDetectedCalendar is
forwarded per (feature, time zone offset) pair the inner test returns. -/
def testStep (month : ℤ → ℕ) (innerResult : List (ℕ × ℤ)) (s : CCalendarTest)
    (time lastTime : ℤ) : CCalendarTest × Bool × List SDetectedCalendarMsg :=
  let fired := shouldTest month s time
  if fired.1 then
    match fired.2.machine with
    | CCState.test =>
        (fired.2, true, innerResult.map (fun p => ⟨time, lastTime, p.1, p.2⟩))
    | CCState.notTesting => (fired.2, false, [])
    | CCState.initial => (fired.2, false, [])
    | CCState.error => (apply month fired.2 CCSymbol.reset time, false, [])
  else
    (fired.2, false, [])

end CCalendarTest

/-- C7: in the Test state, a test step invokes the inner calendar test
exactly when the civil month of the time equals last month plus one modulo
twelve, and when it does, exactly one DetectedCalendar message is
forwarded per (feature, time zone offset) pair the inner test returns, in
order; otherwise none is forwarded. -/
theorem calendarTest_test_fires_iff (month : ℤ → ℕ) (innerResult : List (ℕ × ℤ))
    (s : CCalendarTest) (time lastTime : ℤ) (hs : s.machine = CCState.test) :
    ((CCalendarTest.testStep month innerResult s time lastTime).2.1 = true ↔
      month time = (s.lastMonth + 1) % 12) ∧
    ((CCalendarTest.testStep month innerResult s time lastTime).2.1 = true →
      (CCalendarTest.testStep month innerResult s time lastTime).2.2 =
        innerResult.map (fun p => ⟨time, lastTime, p.1, p.2⟩)) ∧
    ((CCalendarTest.testStep month innerResult s time lastTime).2.1 = false →
      (CCalendarTest.testStep month innerResult s time lastTime).2.2 = []) := by
  unfold CCalendarTest.testStep CCalendarTest.shouldTest
  by_cases h : month time = (s.lastMonth + 1) % 12
  · simp [h, hs]
  · simp [h, hs]

/-- Closed instance of the C7 theorem: last month 3, month of the time 4,
one returned feature pair. -/
theorem calendarTest_test_fires_iff_witness :
    ((CCalendarTest.testStep (fun _ => 4) [(7, 0)] ⟨CCState.test, 3, true⟩ 100 50).2.1 = true ↔
      (fun (_ : ℤ) => 4) 100 = (3 + 1) % 12) ∧
    ((CCalendarTest.testStep (fun _ => 4) [(7, 0)] ⟨CCState.test, 3, true⟩ 100 50).2.1 = true →
      (CCalendarTest.testStep (fun _ => 4) [(7, 0)] ⟨CCState.test, 3, true⟩ 100 50).2.2 =
        [(7, 0)].map (fun p => ⟨100, 50, p.1, p.2⟩)) ∧
    ((CCalendarTest.testStep (fun _ => 4) [(7, 0)] ⟨CCState.test, 3, true⟩ 100 50).2.1 = false →
      (CCalendarTest.testStep (fun _ => 4) [(7, 0)] ⟨CCState.test, 3, true⟩ 100 50).2.2 = []) :=
  calendarTest_test_fires_iff (fun _ => 4) [(7, 0)] ⟨CCState.test, 3, true⟩ 100 50 rfl

/-- Fold of test steps over a list of observation times, collecting every
forwarded DetectedCalendar message.  The inner test result at each time is
supplied by the function parameter. -/
def runCalendarTest (month : ℤ → ℕ) (inner : ℤ → List (ℕ × ℤ))
    (s : CCalendarTest) : List ℤ → CCalendarTest × List SDetectedCalendarMsg
  | [] => (s, [])
  | t :: ts =>
      let step := CCalendarTest.testStep month (inner t) s t t
      let rest := runCalendarTest month inner step.1 ts
      (rest.1, step.2.2 ++ rest.2)

/-- C9: when the calendar test first enters its Test state at time t (from
Initial, with no inner test yet), apply seeds last month with month(t) + 2;
afterwards the machine is in Test, and over any sequence of observations
none of whose civil months equals (month(t) + 3) mod 12 no inner test runs
and no DetectedCalendar message is emitted, while last month stays
month(t) + 2.  In particular the months month(t), month(t) + 1 and
month(t) + 2 (mod 12) do not trigger, so at least two month rollovers pass
without a test. -/
theorem calendarTest_first_test_delay (month : ℤ → ℕ) (inner : ℤ → List (ℕ × ℤ))
    (s : CCalendarTest) (t : ℤ) (hs : s.machine = CCState.initial)
    (hnull : s.testExists = false) :
    (CCalendarTest.apply month s CCSymbol.newValue t).lastMonth = month t + 2 ∧
    (CCalendarTest.apply month s CCSymbol.newValue t).machine = CCState.test ∧
    (∀ ts : List ℤ, (∀ u ∈ ts, month u ≠ (month t + 3) % 12) →
      (runCalendarTest month inner (CCalendarTest.apply month s CCSymbol.newValue t) ts).2 = [] ∧
      (runCalendarTest month inner (CCalendarTest.apply month s CCSymbol.newValue t) ts).1.lastMonth =
        month t + 2 ∧
      (runCalendarTest month inner (CCalendarTest.apply month s CCSymbol.newValue t) ts).1.machine =
        CCState.test) ∧
    (∀ k, k < 3 → (month t + k) % 12 ≠ (month t + 3) % 12) := by
  have happly : CCalendarTest.apply month s CCSymbol.newValue t =
      ⟨CCState.test, month t + 2, true⟩ := by
    unfold CCalendarTest.apply
    rw [hs]
    simp [ccTransition, hnull]
  refine ⟨by rw [happly], by rw [happly], ?_, ?_⟩
  · rw [happly]
    have key : ∀ ts : List ℤ, (∀ u ∈ ts, month u ≠ (month t + 3) % 12) →
        (runCalendarTest month inner ⟨CCState.test, month t + 2, true⟩ ts).2 = [] ∧
        (runCalendarTest month inner ⟨CCState.test, month t + 2, true⟩ ts).1 =
          ⟨CCState.test, month t + 2, true⟩ := by
      intro ts
      induction ts with
      | nil => intro _; exact ⟨rfl, rfl⟩
      | cons u us ih =>
          intro hall
          have hu : month u ≠ (month t + 3) % 12 := hall u (List.mem_cons_self u us)
          have hus : ∀ v ∈ us, month v ≠ (month t + 3) % 12 := fun v hv =>
            hall v (List.mem_cons_of_mem u hv)
          have hstep : CCalendarTest.testStep month (inner u)
              ⟨CCState.test, month t + 2, true⟩ u u =
                (⟨CCState.test, month t + 2, true⟩, false, []) := by
            unfold CCalendarTest.testStep CCalendarTest.shouldTest
            have : month u ≠ (month t + 2 + 1) % 12 := by
              have : month t + 2 + 1 = month t + 3 := by omega
              rw [this]
              exact hu
            simp only [this, if_neg]
            simp [this]
          unfold runCalendarTest
          rw [hstep]
          simp only
          rcases ih hus with ⟨h1, h2⟩
          exact ⟨by simp [h1], h2⟩
    intro ts hts
    rcases key ts hts with ⟨h1, h2⟩
    exact ⟨h1, by rw [h2], by rw [h2]⟩
  · intro k hk h
    have h3 : k % 12 = 3 % 12 := Nat.ModEq.add_left_cancel' (month t) h
    omega

/-- Closed instance of the C9 theorem: entering Test at a time whose month
is 5 seeds last month with 7. -/
theorem calendarTest_first_test_delay_witness :
    (CCalendarTest.apply (fun _ => 5) ⟨CCState.initial, 0, false⟩ CCSymbol.newValue 0).lastMonth = 7 :=
  (calendarTest_first_test_delay (fun _ => 5) (fun _ => []) ⟨CCState.initial, 0, false⟩
    0 rfl rfl).1

/-! ## The component store (C2, C5, C8)

Source: CComponents, lines 1628 to 3104.  The seasonal and calendar
component classes live outside this source slice; they are modelled as
records of the observables the store reads, with the operations the store
calls acting on those observables as the specification describes them.
The trend component and the regression inside the gain controller are
likewise outside the slice; they are modelled freely as lists of the operations
applied to them, which keeps every store-level mutation exact. -/

/-- Modelled from the spec: a seasonal component (CSeasonalComponent).
The store reads its time descriptor (period, window), its memory size,
whether its values are finite, whether it wants interpolation, its value,
mean value, slope and whether the slope is accurate.  shift_level and
shift_slope add to the mean value and slope; shift_origin, interpolate and
the adaptive refinement do not change any observable modelled here. -/
structure SeasonalComp where
  period : ℤ
  windowed : Bool
  windowStart : ℤ
  windowEnd : ℤ
  size : ℕ
  bad : Bool
  wantsInterpolation : ℤ → Bool
  inWindowAt : ℤ → Bool
  valueAt : ℤ → ℚ
  meanValue : ℚ
  slope : ℚ
  slopeAccurateAt : ℤ → Bool
  initialized : Bool

/-- Modelled from the spec: shift_level adds the shift to the component
level, hence to its mean value and its values. -/
def SeasonalComp.shiftLevel (c : SeasonalComp) (shift : ℚ) : SeasonalComp :=
  { c with meanValue := c.meanValue + shift, valueAt := fun t => c.valueAt t + shift }

/-- Modelled from the spec: shift_slope adds the shift to the slope. -/
def SeasonalComp.shiftSlope (c : SeasonalComp) (shift : ℚ) : SeasonalComp :=
  { c with slope := c.slope + shift }

/-- The window pair of the component's time descriptor; unwindowed
components share the zero window, as in canonicalize (line 2352). -/
def SeasonalComp.windowOrZero (c : SeasonalComp) : ℤ × ℤ :=
  if c.windowed then (c.windowStart, c.windowEnd) else (0, 0)

/-- Modelled from the spec: a calendar component (CCalendarComponent).
The store reads its feature, time zone offset, memory size, finiteness,
interpolation demand and the window length of its feature, which
CCalendar::prune passes to the error statistics as the period. -/
structure CalendarComp where
  feature : ℕ
  timeZoneOffset : ℤ
  size : ℕ
  bad : Bool
  wantsInterpolation : ℤ → Bool
  inWindowAt : ℤ → Bool
  valueAt : ℤ → ℚ
  meanValue : ℚ
  featureWindow : ℤ
  initialized : Bool

/-- A fresh, empty per-component error accumulator. -/
def emptyComponentErrors : CComponentErrors := ⟨0, 0, 0, 0, 0⟩

/-- Modelled from the spec: a trend component (CTrendComponent) is a black
box to the store, so it is modelled freely as the list of operations the store
has applied to it. -/
inductive TrendOp
  | addPoint (time : ℤ) (value weight : ℚ)
  | propagateBy (dt : ℚ)
  | shiftLevelBy (shift : ℚ)
  | shiftSlopeBy (time : ℤ) (shift : ℚ)
  | shiftOriginTo (time : ℤ)

/-- Modelled from the spec: the operations applied to the regression and
the amplitude accumulator inside the gain controller, kept as a free list
because ageing uses an exponential the store never inspects. -/
inductive GainOp
  | seedAmplitudes (sumOfAbsolutePredictions : ℚ)
  | addAt (scaledTime : ℚ) (sumOfAbsolutePredictions : ℚ)
  | ageBy (decayRate : ℚ) (dt : ℤ)
  | shiftAbscissaBy (shift : ℚ)

/-- State of CGainController (lines 2411 to 2494): the regression origin
and the free list of operations applied to its accumulators. -/
structure CGainController where
  regressionOrigin : ℤ
  ops : List GainOp

/-- Embedding of CGainController::clear (lines 2435 to 2439). -/
def CGainController.clear (_g : CGainController) : CGainController := ⟨0, []⟩

/-- Embedding of CGainController::seed (lines 2457 to 2461): record the
sum of absolute predictions into the amplitude accumulator. -/
def CGainController.seed (g : CGainController) (predictions : List ℚ) : CGainController :=
  { g with ops := g.ops ++ [GainOp.seedAmplitudes (predictions.map (fun p => |p|)).sum] }

/-- Embedding of CGainController::age (lines 2476 to 2479) with the ageing
factor kept symbolic. -/
def CGainController.ageStep (g : CGainController) (decayRate : ℚ) (dt : ℤ) : CGainController :=
  { g with ops := g.ops ++ [GainOp.ageBy decayRate dt] }

/-- Embedding of CGainController::shiftOrigin (lines 2481 to 2487): floor
the time to a week; when it moved forward, shift the regression abscissa
and record the new origin. -/
def CGainController.shiftOrigin (g : CGainController) (time : ℤ) : CGainController :=
  let week := CIntegerTools.floorTo time WEEK
  if week > g.regressionOrigin then
    { regressionOrigin := week
      ops := g.ops ++ [GainOp.shiftAbscissaBy
        (-(((week - g.regressionOrigin : ℤ) : ℚ) / (WEEK : ℚ)))] }
  else g

/-- State of CComponents::CSeasonal (lines 2565 onward): the component
vector and the parallel per-component error vector. -/
structure CSeasonalPart where
  components : List SeasonalComp
  predictionErrors : List CComponentErrors

/-- State of CComponents::CCalendar (lines 2907 onward). -/
structure CCalendarPart where
  components : List CalendarComp
  predictionErrors : List CComponentErrors

/-- Keep the entries of a list whose mask entry is false, preserving
order; this is the effect of the swap-compaction loop of CSeasonal::remove
(lines 2794 to 2804). -/
def keepUnmasked {α : Type} (mask : List Bool) (xs : List α) : List α :=
  ((mask.zip xs).filter (fun p => p.1 = false)).map (fun p => p.2)

/-- Embedding of CSeasonal::remove (lines 2788 to 2806): when the mask
length disagrees with the component count nothing is touched and failure
is reported, else the flagged components and their errors are dropped. -/
def CSeasonalPart.remove (sl : CSeasonalPart) (mask : List Bool) :
    Option CSeasonalPart :=
  if mask.length ≠ sl.components.length then none
  else some ⟨keepUnmasked mask sl.components, keepUnmasked mask sl.predictionErrors⟩

/-- Embedding of CSeasonal::add (lines 2767 to 2770). -/
def CSeasonalPart.add (sl : CSeasonalPart) (c : SeasonalComp) : CSeasonalPart :=
  ⟨sl.components ++ [c], sl.predictionErrors ++ [emptyComponentErrors]⟩

/-- Embedding of CSeasonal::clearPredictionErrors (lines 2638 to 2642). -/
def CSeasonalPart.clearPredictionErrors (sl : CSeasonalPart) : CSeasonalPart :=
  ⟨sl.components, sl.predictionErrors.map (fun _ => emptyComponentErrors)⟩

/-- Embedding of CSeasonal::size (lines 2644 to 2650). -/
def CSeasonalPart.size (sl : CSeasonalPart) : ℕ :=
  (sl.components.map (fun c => c.size)).sum

/-- Embedding of CSeasonal::refreshForNewComponents (lines 2780 to 2786):
sort components and their errors simultaneously by the component time
descriptor; the descriptor order outside this slice is by period, so the
pairs are sorted by period. -/
def CSeasonalPart.refreshForNewComponents (sl : CSeasonalPart) : CSeasonalPart :=
  let sorted := (sl.components.zip sl.predictionErrors).insertionSort
    (fun a b => a.1.period ≤ b.1.period)
  ⟨sorted.map (fun p => p.1), sorted.map (fun p => p.2)⟩

/-- Embedding of CSeasonal::removeComponentsWithBadValues (lines 2604 to
2625): drop every component whose values are not finite, with its errors,
and report whether any was dropped. -/
def CSeasonalPart.removeComponentsWithBadValues (sl : CSeasonalPart) :
    CSeasonalPart × Bool :=
  let keep := (sl.components.zip sl.predictionErrors).filter (fun p => p.1.bad = false)
  (⟨keep.map (fun p => p.1), keep.map (fun p => p.2)⟩,
    decide (sl.components.any (fun c => c.bad)))

/-- Embedding of CSeasonal::shouldInterpolate (lines 2740 to 2747). -/
def CSeasonalPart.shouldInterpolate (sl : CSeasonalPart) (time : ℤ) : Bool :=
  sl.components.any (fun c => c.wantsInterpolation time)

/-- Embedding of CSeasonal::interpolate (lines 2749 to 2756); the refit of
the adaptive function does not change any observable of the component
model. -/
def CSeasonalPart.interpolate (sl : CSeasonalPart) (_time : ℤ) : CSeasonalPart := sl

/-- Embedding of CSeasonal::appendPredictions (lines 2729 to 2738). -/
def CSeasonalPart.appendPredictions (sl : CSeasonalPart) (time : ℤ) : List ℚ :=
  (sl.components.filter (fun c => c.inWindowAt time)).map
    (fun c => c.valueAt time - c.meanValue)

/-- Embedding of CCalendar::size (lines 2962 to 2968). -/
def CCalendarPart.size (cl : CCalendarPart) : ℕ :=
  (cl.components.map (fun c => c.size)).sum

/-- Embedding of CCalendar::haveComponent (lines 2975 to 2982). -/
def CCalendarPart.haveComponent (cl : CCalendarPart) (feature : ℕ) : Bool :=
  cl.components.any (fun c => c.feature = feature)

/-- Embedding of CCalendar::add (lines 3031 to 3040): append a freshly
created component of the given size, marked initialized; the fresh adaptive
function is finite, requests no interpolation yet and has the zero
function as its value. -/
def CCalendarPart.add (cl : CCalendarPart) (feature : ℕ) (timeZoneOffset : ℤ)
    (size : ℕ) : CCalendarPart :=
  let fresh : CalendarComp :=
    { feature := feature
      timeZoneOffset := timeZoneOffset
      size := size
      bad := false
      wantsInterpolation := fun _ => false
      inWindowAt := fun _ => false
      valueAt := fun _ => 0
      meanValue := 0
      featureWindow := DAY
      initialized := true }
  ⟨cl.components ++ [fresh], cl.predictionErrors ++ [emptyComponentErrors]⟩

/-- Embedding of CCalendar::clearPredictionErrors (lines 2956 to 2960). -/
def CCalendarPart.clearPredictionErrors (cl : CCalendarPart) : CCalendarPart :=
  ⟨cl.components, cl.predictionErrors.map (fun _ => emptyComponentErrors)⟩

/-- Embedding of CCalendar::prune (lines 3048 to 3063): drop every
component whose error statistics say remove, passing the window of its
feature as the period, and report whether the component vector is empty
afterwards. -/
def CCalendarPart.prune (cl : CCalendarPart) (bucketLength : ℤ) :
    CCalendarPart × Bool :=
  let keep := (cl.components.zip cl.predictionErrors).filter
    (fun p => p.2.remove bucketLength p.1.featureWindow = false)
  (⟨keep.map (fun p => p.1), keep.map (fun p => p.2)⟩, keep.isEmpty)

/-- Embedding of CCalendar::removeComponentsWithBadValues (lines 3065 to
3086). -/
def CCalendarPart.removeComponentsWithBadValues (cl : CCalendarPart) :
    CCalendarPart × Bool :=
  let keep := (cl.components.zip cl.predictionErrors).filter (fun p => p.1.bad = false)
  (⟨keep.map (fun p => p.1), keep.map (fun p => p.2)⟩,
    decide (cl.components.any (fun c => c.bad)))

/-- Embedding of CCalendar::shouldInterpolate (lines 3010 to 3014). -/
def CCalendarPart.shouldInterpolate (cl : CCalendarPart) (time : ℤ) : Bool :=
  cl.components.any (fun c => c.wantsInterpolation time)

/-- Embedding of CCalendar::interpolate (lines 3016 to 3023); as for the
seasonal case the refit changes no modelled observable. -/
def CCalendarPart.interpolate (cl : CCalendarPart) (_time : ℤ) : CCalendarPart := cl

/-- Embedding of CCalendar::appendPredictions (lines 2999 to 3008). -/
def CCalendarPart.appendPredictions (cl : CCalendarPart) (time : ℤ) : List ℚ :=
  (cl.components.filter (fun c => c.inWindowAt time)).map
    (fun c => c.valueAt time - c.meanValue)

/-- Association list standing for the boost flat_map keyed by a window
pair; entries are kept sorted by key so that iteration order matches the
flat_map. -/
def windowKeyLt (a b : ℤ × ℤ) : Bool :=
  a.1 < b.1 || (a.1 = b.1 && a.2 < b.2)

/-- Add a value to the entry of a key, inserting the key in order when it
is absent; the effect of operator[] followed by += on a flat_map. -/
def fmapAdd {α : Type} (zero : α) (combine : α → α → α) :
    List ((ℤ × ℤ) × α) → (ℤ × ℤ) → α → List ((ℤ × ℤ) × α)
  | [], k, v => [(k, combine zero v)]
  | (k', v') :: rest, k, v =>
      if k = k' then (k', combine v' v) :: rest
      else if windowKeyLt k k' then (k, combine zero v) :: (k', v') :: rest
      else (k', v') :: fmapAdd zero combine rest k v

/-- Lookup in the window flat_map. -/
def fmapFind {α : Type} : List ((ℤ × ℤ) × α) → (ℤ × ℤ) → Option α
  | [], _ => none
  | (k', v') :: rest, k => if k = k' then some v' else fmapFind rest k

/-- Decrement the counter of a key when present; the effect of
--j->second on the window count map. -/
def fmapDec : List ((ℤ × ℤ) × ℕ) → (ℤ × ℤ) → List ((ℤ × ℤ) × ℕ)
  | [], _ => []
  | (k', v') :: rest, k =>
      if k = k' then (k', v' - 1) :: rest else (k', v') :: fmapDec rest k

/-- Shift the level of the first component satisfying the predicate,
reporting failure when none does; the effect of the find-then-break loops
in CSeasonal::prune. -/
def shiftFirstWhere (pred : SeasonalComp → Bool) (shift : ℚ) :
    List SeasonalComp → Option (List SeasonalComp)
  | [] => none
  | c :: rest =>
      if pred c then some (c.shiftLevel shift :: rest)
      else (shiftFirstWhere pred shift rest).map (fun cs => c :: cs)

/-- One shift entry applied to the remaining components, CSeasonal::prune
lines 2844 to 2877: when the shifted window was a windowed key, the first
component with that window absorbs the shift; otherwise the first
unwindowed component does; failing that, the fallback loop shifts every
component, because the vector of already shifted windows is declared but
never populated in the source, so its find always misses. -/
def applyPruneShift (windowKeys : List ((ℤ × ℤ) × ℕ))
    (cs : List SeasonalComp) (kv : (ℤ × ℤ) × ℚ) : List SeasonalComp :=
  if (fmapFind windowKeys kv.1).isSome then
    (shiftFirstWhere (fun c => decide ((c.windowStart, c.windowEnd) = kv.1)) kv.2 cs).getD cs
  else
    match shiftFirstWhere (fun c => c.windowed = false) kv.2 cs with
    | some cs' => cs'
    | none => cs.map (fun c => c.shiftLevel kv.2)

/-- Embedding of CSeasonal::prune (lines 2808 to 2881).  With more than
one component: count the windowed components per window; flag a component
for removal when its window is unknown to that count map or still holds
more than one entry and its error statistics say remove, accumulating the
removed mean values per window and decrementing the count; drop the
flagged components; then redistribute each accumulated shift.  The
returned flag reports whether the component vector ended empty. -/
def CSeasonalPart.prune (sl : CSeasonalPart) (bucketLength : ℤ) :
    CSeasonalPart × Bool :=
  if sl.components.length ≤ 1 then (sl, sl.components.isEmpty)
  else
    let windowCounts : List ((ℤ × ℤ) × ℕ) :=
      sl.components.foldl
        (fun m c => if c.windowed then fmapAdd 0 (· + ·) m (c.windowStart, c.windowEnd) 1 else m)
        []
    let scan := (sl.components.zip sl.predictionErrors).foldl
      (fun (acc : List ((ℤ × ℤ) × ℕ) × List Bool × List ((ℤ × ℤ) × ℚ)) p =>
        let w := (p.1.windowStart, p.1.windowEnd)
        let j := fmapFind acc.1 w
        if (j.isNone || decide (j.getD 0 > 1)) &&
            p.2.remove bucketLength p.1.period then
          (fmapDec acc.1 w, acc.2.1 ++ [true],
            fmapAdd 0 (· + ·) acc.2.2 w p.1.meanValue)
        else (acc.1, acc.2.1 ++ [false], acc.2.2))
      (windowCounts, [], [])
    let kept := ((sl.components.zip sl.predictionErrors).zip scan.2.1).filter
      (fun q => q.2 = false)
    let comps1 := kept.map (fun q => q.1.1)
    let errors1 := kept.map (fun q => q.1.2)
    let comps2 := scan.2.2.foldl (applyPruneShift windowCounts) comps1
    (⟨comps2, errors1⟩, comps2.isEmpty)

/-- The content of a DetectedSeasonal message as the store reads it: the
proposal of the seasonality test, with the components the store would
create from it, the removal mask, and the retained history the trend is
refit over. -/
structure CSeasonalDecomposition where
  time : ℤ
  toRemoveMask : List Bool
  seasonal : List SeasonalComp
  withinBucketVariance : ℚ
  trendInitialValuesStartTime : ℤ
  trendInitialValuesEndTime : ℤ
  trendBucketLength : ℤ
  trendInitialValues : List (ℚ × ℚ)

/-- Embedding of CSeasonal::estimateSizeChange (lines 2652 to 2683): zero
on a mask length mismatch, else the size of the components to add minus
the size of the components flagged for removal. -/
def CSeasonalPart.estimateSizeChange (sl : CSeasonalPart)
    (msg : CSeasonalDecomposition) : ℤ :=
  if msg.toRemoveMask.length ≠ sl.components.length then 0
  else
    let removeSize : ℕ := (((msg.toRemoveMask.zip sl.components).filter
      (fun p => p.1 = true)).map (fun p => p.2.size)).sum
    let addSize : ℕ := (msg.seasonal.map (fun c => c.size)).sum
    (addSize : ℤ) - (removeSize : ℤ)

/-- States of the component store state machine (lines 284 to 300). -/
inductive SCState
  | newComponents
  | normal
  | disabled
  | error
  deriving DecidableEq

/-- Symbols of the component store state machine. -/
inductive SCSymbol
  | addedComponents
  | interpolated
  | reset
  deriving DecidableEq

/-- The component store transition function SC_TRANSITION_FUNCTION (lines
297 to 300). -/
def scTransition : SCState → SCSymbol → SCState
  | SCState.newComponents, SCSymbol.addedComponents => SCState.newComponents
  | SCState.normal, SCSymbol.addedComponents => SCState.newComponents
  | SCState.disabled, SCSymbol.addedComponents => SCState.disabled
  | SCState.error, SCSymbol.addedComponents => SCState.error
  | SCState.newComponents, SCSymbol.interpolated => SCState.normal
  | SCState.normal, SCSymbol.interpolated => SCState.normal
  | SCState.disabled, SCSymbol.interpolated => SCState.disabled
  | SCState.error, SCSymbol.interpolated => SCState.error
  | _, SCSymbol.reset => SCState.normal

/-- State of CComponents (lines 1628 onward) restricted to the modelled
fields; m_MeanVarianceScale and the two prediction error moments are not
read by the operations the claims concern. -/
structure CComponents where
  machine : SCState
  decayRate : ℚ
  bucketLength : ℤ
  seasonalComponentSize : ℕ
  calendarComponentSize : ℕ
  trend : List TrendOp
  seasonal : Option CSeasonalPart
  calendar : Option CCalendarPart
  gainController : CGainController
  usingTrendForPrediction : Bool

namespace CComponents

/-- Embedding of CComponents::size (lines 2089 to 2091). -/
def size (s : CComponents) : ℕ :=
  (match s.seasonal with
    | none => 0
    | some sl => sl.size) +
  (match s.calendar with
    | none => 0
    | some cl => cl.size)

/-- Embedding of CComponents::maxSize (lines 2093 to 2095). -/
def maxSize (s : CComponents) : ℕ := MAXIMUM_COMPONENTS * s.seasonalComponentSize

/-- The seasonal component vector the store owns. -/
def seasonalComponentsList (s : CComponents) : List SeasonalComp :=
  match s.seasonal with
  | none => []
  | some sl => sl.components

/-- The calendar component vector the store owns. -/
def calendarComponentsList (s : CComponents) : List CalendarComp :=
  match s.calendar with
  | none => []
  | some cl => cl.components

/-- The number of seasonal plus calendar components. -/
def componentCount (s : CComponents) : ℕ :=
  s.seasonalComponentsList.length + s.calendarComponentsList.length

/-- Embedding of CComponents::shiftOrigin (lines 2315 to 2322): pull the
origin back by half a day per unit decay rate; the trend and the seasonal
components record the shift, the gain controller moves its regression
origin. -/
def shiftOriginStep (s : CComponents) (time : ℤ) : CComponents :=
  let t := time - truncQ ((DAY : ℚ) / s.decayRate / 2)
  { s with
    trend := s.trend ++ [TrendOp.shiftOriginTo t]
    gainController := s.gainController.shiftOrigin t }

/-- Modelled from the spec: the sign margin of a min-max bracket is the
common signed distance of the values from zero: the minimum when every
value is positive, the maximum when every value is negative, zero
otherwise (CBasicStatistics::CMinMax lives outside this source slice). -/
def signMarginOf (xs : List ℚ) : ℚ :=
  match xs with
  | [] => 0
  | x :: rest =>
      let mn := rest.foldl min x
      let mx := rest.foldl max x
      if mn > 0 then mn else if mx < 0 then mx else 0

/-- Embedding of CComponents::canonicalize (lines 2324 to 2395): shift the
regression origins, prune stale seasonal and calendar components, then,
when seasonal components remain, compute the per-window level and slope
sums and, when their sign margin is not zero, redistribute the common
level and slope from the components into the trend. -/
def canonicalize (s : CComponents) (time : ℤ) : CComponents :=
  let s1 := shiftOriginStep s time
  let s2 :=
    match s1.seasonal with
    | none => s1
    | some sl =>
        let pr := sl.prune s1.bucketLength
        if pr.2 then { s1 with seasonal := none } else { s1 with seasonal := some pr.1 }
  let s3 :=
    match s2.calendar with
    | none => s2
    | some cl =>
        let pr := cl.prune s2.bucketLength
        if pr.2 then { s2 with calendar := none } else { s2 with calendar := some pr.1 }
  match s3.seasonal with
  | none => s3
  | some sl =>
      let levels := sl.components.foldl
        (fun m c => fmapAdd 0 (· + ·) m c.windowOrZero c.meanValue) []
      let numberLevels := sl.components.foldl
        (fun m c => fmapAdd 0 (· + ·) m c.windowOrZero (1 : ℚ)) []
      let slopes := sl.components.foldl
        (fun m c => if c.slopeAccurateAt time then
          fmapAdd 0 (· + ·) m c.windowOrZero c.slope else m) []
      let numberSlopes := sl.components.foldl
        (fun m c => if c.slopeAccurateAt time then
          fmapAdd 0 (· + ·) m c.windowOrZero (1 : ℚ) else m) []
      let commonLevel := signMarginOf (levels.map (fun kv => kv.2))
      let afterLevel :=
        if commonLevel ≠ 0 then
          ({ s3 with
            seasonal := some ⟨sl.components.map (fun c =>
              c.shiftLevel (((fmapFind levels c.windowOrZero).getD 0 - commonLevel) /
                (fmapFind numberLevels c.windowOrZero).getD 0 - c.meanValue)),
              sl.predictionErrors⟩
            trend := s3.trend ++ [TrendOp.shiftLevelBy commonLevel] })
        else s3
      let commonSlope := signMarginOf (slopes.map (fun kv => kv.2))
      if commonSlope ≠ 0 then
        match afterLevel.seasonal with
        | none => afterLevel
        | some sl2 =>
            { afterLevel with
              seasonal := some ⟨sl2.components.map (fun c =>
                if c.slopeAccurateAt time then
                  c.shiftSlope (((fmapFind slopes c.windowOrZero).getD 0 - commonSlope) /
                    (fmapFind numberSlopes c.windowOrZero).getD 0 - c.slope)
                else c),
                sl2.predictionErrors⟩
              trend := afterLevel.trend ++ [TrendOp.shiftSlopeBy time commonSlope] }
      else afterLevel

/-- Embedding of CComponents::shouldInterpolate (lines 2269 to 2273). -/
def shouldInterpolateP (s : CComponents) (time : ℤ) : Bool :=
  s.machine = SCState.newComponents ||
    (match s.seasonal with
      | none => false
      | some sl => sl.shouldInterpolate time) ||
    (match s.calendar with
      | none => false
      | some cl => cl.shouldInterpolate time)

/-- The interpolation block of CComponents::interpolate (lines 2286 to
2301): remove components with non-finite values, then interpolate; the
empty-residual callback fired on removal carries no state. -/
def interpolateComps (s : CComponents) (time : ℤ) : CComponents :=
  let s1 :=
    match s.seasonal with
    | none => s
    | some sl =>
        let rb := sl.removeComponentsWithBadValues
        { s with seasonal := some (rb.1.interpolate time) }
  match s1.calendar with
  | none => s1
  | some cl =>
      let rb := cl.removeComponentsWithBadValues
      { s1 with calendar := some (rb.1.interpolate time) }

/-- Clearing performed by SC_RESET and on entering DISABLED (lines 2218 to
2222 and 2237 to 2241): the trend is cleared and both component sets are
freed. -/
def clearAll (s : CComponents) : CComponents :=
  { s with trend := [], seasonal := none, calendar := none }

/-- A record of one state the machine entered while handling a message,
with the component vectors at the moment of entry.  These trace entries
render the side effects the apply hooks run on entry. -/
structure SCEntry where
  state : SCState
  seasonalComponents : List SeasonalComp
  calendarComponents : List CalendarComp

/-- The trace entry for the current state of the store. -/
def entryOf (s : CComponents) : SCEntry :=
  ⟨s.machine, s.seasonalComponentsList, s.calendarComponentsList⟩

/-- Embedding of CComponents::interpolate (lines 2275 to 2313) in the case
where the nested apply(SC_INTERPOLATED) cannot change the machine state,
which holds whenever the machine is NORMAL; it is only called in that
state, through the hook of a transition that just landed there. -/
def interpolateInner (s : CComponents) (time : ℤ) : CComponents :=
  match s.machine with
  | SCState.normal | SCState.newComponents =>
      let s1 := canonicalize s time
      if shouldInterpolateP s1 time then
        let s2 := interpolateComps s1 time
        { s2 with machine := scTransition s2.machine SCSymbol.interpolated }
      else s1
  | _ => s

/-- Embedding of CComponents::interpolate (lines 2275 to 2313) as invoked
from an apply hook: canonicalize, and when interpolation is due, run it
and apply SC_INTERPOLATED; when that transition changes the state (only
NEW_COMPONENTS to NORMAL is possible), the entry hook interpolates once
more, this time without a further state change.  The DISABLED and ERROR
branches of the nested hook are kept for totality; the transition table
cannot reach them from NORMAL or NEW_COMPONENTS. -/
def interpolateMsg (s : CComponents) (time : ℤ) : CComponents × List SCEntry :=
  match s.machine with
  | SCState.normal | SCState.newComponents =>
      let s1 := canonicalize s time
      if shouldInterpolateP s1 time then
        let s2 := interpolateComps s1 time
        let s3 := { s2 with machine := scTransition s2.machine SCSymbol.interpolated }
        if s3.machine = s2.machine then (s3, [])
        else
          match s3.machine with
          | SCState.normal | SCState.newComponents =>
              (interpolateInner s3 time, [entryOf s3])
          | SCState.disabled => (clearAll s3, [entryOf s3])
          | SCState.error => (clearAll { s3 with machine := SCState.normal }, [entryOf s3])
      else (s1, [])
  | _ => (s, [])

/-- Embedding of CComponents::apply (lines 2216 to 2248): SC_RESET first
clears all state; the machine steps; when the state changed, entering
NORMAL or NEW_COMPONENTS interpolates, entering DISABLED clears all state.
The ERROR branch cannot be entered by a changing transition of the table;
the source would log and apply SC_RESET, which is rendered as the cleared
store in NORMAL followed by its interpolation hook. -/
def applySC (s : CComponents) (symbol : SCSymbol) (time : ℤ) :
    CComponents × List SCEntry :=
  let s0 := if symbol = SCSymbol.reset then clearAll s else s
  let s1 := { s0 with machine := scTransition s0.machine symbol }
  if s1.machine = s0.machine then (s1, [])
  else
    match s1.machine with
    | SCState.normal | SCState.newComponents =>
        let r := interpolateMsg s1 time
        (r.1, entryOf s1 :: r.2)
    | SCState.disabled => (clearAll s1, [entryOf s1])
    | SCState.error =>
        let s2 := { clearAll s1 with machine := SCState.normal }
        let r := interpolateMsg s2 time
        (r.1, entryOf s1 :: entryOf s2 :: r.2)

/-- Embedding of CComponents::fitTrend (lines 2192 to 2205): walk the
retained buckets, adding every non-empty one to the fresh trend and
propagating it by the bucket step. -/
def fitTrend (startTime dt : ℤ) (values : List (ℚ × ℚ)) : List TrendOp :=
  (values.foldl
    (fun (acc : ℤ × List TrendOp) v =>
      (acc.1 + dt,
        if v.1 > 0 then
          acc.2 ++ [TrendOp.addPoint acc.1 v.2 v.1, TrendOp.propagateBy (dt : ℚ)]
        else acc.2))
    (startTime, [])).2

/-- Embedding of CComponents::addSeasonalComponents (lines 2097 to 2175).
Under the memory hard limit a positive estimated size change drops the
proposal; a removal mask length mismatch drops it inside
CSeasonal::remove; otherwise the flagged components are removed, the
proposed ones added, the vector re-sorted, every per-component error
cleared, the gain controller reseeded across the retained history, the
trend refit from the initial values and the trend prediction enabled.
The residual vector passed to the component change callback is external
to the store state. -/
def addSeasonalComponents (s : CComponents) (msg : CSeasonalDecomposition)
    (allocationsAllowed : Bool) : CComponents :=
  match s.seasonal with
  | none => s
  | some sl =>
      if allocationsAllowed = false ∧ sl.estimateSizeChange msg > 0 then s
      else
        match sl.remove msg.toRemoveMask with
        | none => s
        | some sl1 =>
            let sl2 := (msg.seasonal.foldl CSeasonalPart.add sl1).refreshForNewComponents
            let sl3 := sl2.clearPredictionErrors
            let cal1 :=
              match s.calendar with
              | none => none
              | some cl => some cl.clearPredictionErrors
            let steps := ((msg.trendInitialValuesEndTime - msg.trendInitialValuesStartTime +
              s.bucketLength - 1) / s.bucketLength).toNat
            let g := (List.range steps).foldl
              (fun g i =>
                let t := msg.trendInitialValuesStartTime + (i : ℤ) * s.bucketLength
                let preds := sl3.appendPredictions t ++
                  (match cal1 with
                    | none => []
                    | some cl => cl.appendPredictions t)
                (CGainController.seed g preds).ageStep s.decayRate s.bucketLength)
              s.gainController.clear
            { s with
              seasonal := some sl3
              calendar := cal1
              gainController := g
              trend := fitTrend msg.trendInitialValuesStartTime msg.trendBucketLength
                msg.trendInitialValues
              usingTrendForPrediction := true }

/-- Embedding of CComponents::addCalendarComponent (lines 2177 to 2190):
under the memory hard limit nothing is added, else a fresh component of
the calendar default size is appended. -/
def addCalendarComponent (s : CComponents) (feature : ℕ) (timeZoneOffset : ℤ)
    (allocationsAllowed : Bool) : CComponents :=
  if allocationsAllowed = false then s
  else
    match s.calendar with
    | none => s
    | some cl =>
        { s with calendar := some (cl.add feature timeZoneOffset s.calendarComponentSize) }

/-- Embedding of CComponents::handle(SDetectedSeasonal) (lines 1842 to
1869): drop the message when the store size plus one seasonal component
size exceeds the cap; in NORMAL or NEW_COMPONENTS create the seasonal set
when absent, run addSeasonalComponents and apply SC_ADDED_COMPONENTS
unconditionally; DISABLED ignores; other states log and reset. -/
def handleDetectedSeasonal (s : CComponents) (msg : CSeasonalDecomposition)
    (allocationsAllowed : Bool) : CComponents × List SCEntry :=
  if s.size + s.seasonalComponentSize > s.maxSize then (s, [])
  else
    match s.machine with
    | SCState.normal | SCState.newComponents =>
        let s1 := if s.seasonal.isNone then { s with seasonal := some ⟨[], []⟩ } else s
        let s2 := s1.addSeasonalComponents msg allocationsAllowed
        s2.applySC SCSymbol.addedComponents msg.time
    | SCState.disabled => (s, [])
    | SCState.error => s.applySC SCSymbol.reset msg.time

/-- Embedding of CComponents::handle(SDetectedCalendar) (lines 1871 to
1903): drop the message when the store size plus one calendar component
size exceeds the cap; in NORMAL or NEW_COMPONENTS create the calendar set
when absent, ignore an already modelled feature, else add the component
(unless the memory hard limit forbids it) and apply SC_ADDED_COMPONENTS;
DISABLED ignores; other states log and reset. -/
def handleDetectedCalendar (s : CComponents) (time : ℤ) (feature : ℕ)
    (timeZoneOffset : ℤ) (allocationsAllowed : Bool) : CComponents × List SCEntry :=
  if s.size + s.calendarComponentSize > s.maxSize then (s, [])
  else
    match s.machine with
    | SCState.normal | SCState.newComponents =>
        let s1 := if s.calendar.isNone then { s with calendar := some ⟨[], []⟩ } else s
        match s1.calendar with
        | none => (s1, [])
        | some cl =>
            if cl.haveComponent feature then (s1, [])
            else
              let s2 := s1.addCalendarComponent feature timeZoneOffset allocationsAllowed
              s2.applySC SCSymbol.addedComponents time
    | SCState.disabled => (s, [])
    | SCState.error => s.applySC SCSymbol.reset time

end CComponents

theorem addSeasonalComponents_drop (s : CComponents) (msg : CSeasonalDecomposition)
    (allowed : Bool) (sl : CSeasonalPart) (hseas : s.seasonal = some sl)
    (hdrop : msg.toRemoveMask.length ≠ sl.components.length ∨
      (allowed = false ∧ sl.estimateSizeChange msg > 0)) :
    s.addSeasonalComponents msg allowed = s := by
  unfold CComponents.addSeasonalComponents
  simp only [hseas]
  by_cases hg : allowed = false ∧ sl.estimateSizeChange msg > 0
  · rw [if_pos hg]
  · rw [if_neg hg]
    have hmask : msg.toRemoveMask.length ≠ sl.components.length := by
      rcases hdrop with h | h
      · exact h
      · exact absurd h hg
    unfold CSeasonalPart.remove
    rw [if_pos hmask]

/-- C5: when the removal mask length of a DetectedSeasonal proposal
differs from the number of seasonal components, addSeasonalComponents
drops the entire proposal: the store is returned unchanged, so no seasonal
component is removed or added and the trend, the gain controller and the
per-component error statistics keep their values. -/
theorem addSeasonalComponents_mask_mismatch_noop (s : CComponents)
    (msg : CSeasonalDecomposition) (allowed : Bool) (sl : CSeasonalPart)
    (hseas : s.seasonal = some sl)
    (hmask : msg.toRemoveMask.length ≠ sl.components.length) :
    s.addSeasonalComponents msg allowed = s ∧
    (s.addSeasonalComponents msg allowed).seasonal = some sl ∧
    (s.addSeasonalComponents msg allowed).calendar = s.calendar ∧
    (s.addSeasonalComponents msg allowed).trend = s.trend ∧
    (s.addSeasonalComponents msg allowed).gainController = s.gainController := by
  have h := addSeasonalComponents_drop s msg allowed sl hseas (Or.inl hmask)
  rw [h]
  exact ⟨rfl, hseas, rfl, rfl, rfl⟩

/-- A daily seasonal component used by the concrete instances below. -/
def exampleSeasonalComp : SeasonalComp :=
  { period := 86400
    windowed := false
    windowStart := 0
    windowEnd := 0
    size := 3
    bad := false
    wantsInterpolation := fun _ => false
    inWindowAt := fun _ => true
    valueAt := fun _ => 0
    meanValue := 0
    slope := 0
    slopeAccurateAt := fun _ => false
    initialized := true }

/-- The seasonal set holding just the daily example component. -/
def exampleSeasonalPart : CSeasonalPart := ⟨[exampleSeasonalComp], [emptyComponentErrors]⟩

/-- A store holding one seasonal component, used to instantiate the C5
theorem. -/
def componentsStoreWithOneSeasonal : CComponents :=
  { machine := SCState.normal
    decayRate := 1
    bucketLength := 3600
    seasonalComponentSize := 3
    calendarComponentSize := 1
    trend := []
    seasonal := some exampleSeasonalPart
    calendar := none
    gainController := ⟨0, []⟩
    usingTrendForPrediction := false }

/-- A proposal whose removal mask is empty, mismatching the one seasonal
component of the store above. -/
def mismatchedProposal : CSeasonalDecomposition :=
  { time := 1000
    toRemoveMask := []
    seasonal := []
    withinBucketVariance := 0
    trendInitialValuesStartTime := 0
    trendInitialValuesEndTime := 0
    trendBucketLength := 3600
    trendInitialValues := [] }

/-- Closed instance of the C5 theorem: the mismatched proposal leaves the
one-component store untouched. -/
theorem addSeasonalComponents_mask_mismatch_noop_witness :
    componentsStoreWithOneSeasonal.addSeasonalComponents mismatchedProposal true =
      componentsStoreWithOneSeasonal :=
  (addSeasonalComponents_mask_mismatch_noop componentsStoreWithOneSeasonal
    mismatchedProposal true exampleSeasonalPart rfl (by decide)).1

/-- C8: when the store is in NORMAL, the size pre-check passes and the
proposal is dropped inside addSeasonalComponents, by a removal mask length
mismatch or by the memory hard limit, the handler still behaves exactly as
applying SC_ADDED_COMPONENTS to the unchanged store: the machine
transition NORMAL to NEW_COMPONENTS fires, and the first state entered is
NEW_COMPONENTS with the seasonal and calendar component vectors unchanged
at the moment of entry. -/
theorem handleDetectedSeasonal_transition_despite_drop (s : CComponents)
    (msg : CSeasonalDecomposition) (allowed : Bool) (sl : CSeasonalPart)
    (hsize : s.size + s.seasonalComponentSize ≤ s.maxSize)
    (hmach : s.machine = SCState.normal) (hseas : s.seasonal = some sl)
    (hdrop : msg.toRemoveMask.length ≠ sl.components.length ∨
      (allowed = false ∧ sl.estimateSizeChange msg > 0)) :
    s.handleDetectedSeasonal msg allowed = s.applySC SCSymbol.addedComponents msg.time ∧
    (s.handleDetectedSeasonal msg allowed).2.head? =
      some ⟨SCState.newComponents, s.seasonalComponentsList, s.calendarComponentsList⟩ ∧
    scTransition SCState.normal SCSymbol.addedComponents = SCState.newComponents := by
  have hnoop := addSeasonalComponents_drop s msg allowed sl hseas hdrop
  obtain ⟨m, dr, bl, scs, ccs, tr, se, ca, g, u⟩ := s
  change m = SCState.normal at hmach
  subst hmach
  change se = some sl at hseas
  subst hseas
  have h1 : CComponents.handleDetectedSeasonal
      ⟨SCState.normal, dr, bl, scs, ccs, tr, some sl, ca, g, u⟩ msg allowed =
      CComponents.applySC
        ⟨SCState.normal, dr, bl, scs, ccs, tr, some sl, ca, g, u⟩
        SCSymbol.addedComponents msg.time := by
    unfold CComponents.handleDetectedSeasonal
    rw [if_neg (Nat.not_lt.mpr hsize)]
    show CComponents.applySC (CComponents.addSeasonalComponents
      ⟨SCState.normal, dr, bl, scs, ccs, tr, some sl, ca, g, u⟩ msg allowed)
      SCSymbol.addedComponents msg.time = _
    rw [hnoop]
  refine ⟨h1, ?_, rfl⟩
  rw [h1]
  rfl

/-- A store in NORMAL with one seasonal component, below the size cap,
used to instantiate the C8 theorem together with the mismatched
proposal. -/
theorem handleDetectedSeasonal_transition_despite_drop_witness :
    (componentsStoreWithOneSeasonal.handleDetectedSeasonal mismatchedProposal true =
      componentsStoreWithOneSeasonal.applySC SCSymbol.addedComponents 1000) ∧
    (componentsStoreWithOneSeasonal.handleDetectedSeasonal mismatchedProposal true).2.head? =
      some ⟨SCState.newComponents, componentsStoreWithOneSeasonal.seasonalComponentsList,
        componentsStoreWithOneSeasonal.calendarComponentsList⟩ ∧
    scTransition SCState.normal SCSymbol.addedComponents = SCState.newComponents :=
  handleDetectedSeasonal_transition_despite_drop componentsStoreWithOneSeasonal
    mismatchedProposal true _ (by decide) rfl rfl (Or.inl (by decide))

/-- C2 as amended: the store enforces a memory size cap, not a component
count cap: a DetectedSeasonal message is dropped whole when the component
memory size plus one seasonal component size exceeds eight seasonal
component sizes, and a DetectedCalendar message when the memory size plus
one calendar component size exceeds that bound.  The count of seasonal
plus calendar components is not bounded by eight. -/
theorem componentsStore_size_guards (s : CComponents) (msg : CSeasonalDecomposition)
    (allowed : Bool) (time : ℤ) (feature : ℕ) (timeZoneOffset : ℤ) :
    (s.size + s.seasonalComponentSize > s.maxSize →
      s.handleDetectedSeasonal msg allowed = (s, [])) ∧
    (s.size + s.calendarComponentSize > s.maxSize →
      s.handleDetectedCalendar time feature timeZoneOffset allowed = (s, [])) := by
  constructor
  · intro h
    unfold CComponents.handleDetectedSeasonal
    rw [if_pos h]
  · intro h
    unfold CComponents.handleDetectedCalendar
    rw [if_pos h]

/-- A calendar component of memory size 24, filling the cap of the example
store, whose seasonal component size is 3. -/
def largeCalendarComp : CalendarComp :=
  { feature := 0
    timeZoneOffset := 0
    size := 24
    bad := false
    wantsInterpolation := fun _ => false
    inWindowAt := fun _ => false
    valueAt := fun _ => 0
    meanValue := 0
    featureWindow := DAY
    initialized := true }

/-- A store whose component memory size already equals the cap. -/
def componentsStoreAtCap : CComponents :=
  { machine := SCState.normal
    decayRate := 1
    bucketLength := 3600
    seasonalComponentSize := 3
    calendarComponentSize := 1
    trend := []
    seasonal := none
    calendar := some ⟨[largeCalendarComp], [emptyComponentErrors]⟩
    gainController := ⟨0, []⟩
    usingTrendForPrediction := false }

/-- Closed instance of the amended C2 theorem at the full store. -/
theorem componentsStore_size_guards_witness :
    componentsStoreAtCap.handleDetectedSeasonal mismatchedProposal true =
      (componentsStoreAtCap, []) :=
  (componentsStore_size_guards componentsStoreAtCap mismatchedProposal true 0 5 0).1
    (by decide)

/-- The freshly constructed component store (lines 1630 to 1637) with
seasonal component size 3, hence calendar component size 1 and memory cap
24. -/
def initialComponentsStore : CComponents :=
  { machine := SCState.normal
    decayRate := 1
    bucketLength := 3600
    seasonalComponentSize := 3
    calendarComponentSize := 1
    trend := []
    seasonal := none
    calendar := none
    gainController := ⟨0, []⟩
    usingTrendForPrediction := false }

/-- C2 counterexample: from the fresh store, handling nine DetectedCalendar
messages with nine distinct features, all with allocations allowed, leaves
the store with nine components: the seasonal plus calendar count exceeds
eight, because the guard compares memory sizes, and nine calendar
components of size one fit well under the cap of twenty-four. -/
theorem componentsStore_nine_components :
    ((List.range 9).foldl
        (fun s f => (s.handleDetectedCalendar 1000 f 0 true).1)
        initialComponentsStore).componentCount = 9 ∧
    8 < 9 := by
  constructor
  · with_unfolding_all decide
  · decide
